import Mathlib

/-!
Shallow embedding of the `MilvusHandler` class from `src/milvus_handler.py`.

The handler coordinates an external embedding model (`SentenceTransformer`)
and an external vector store (Milvus).  Both collaborators are modelled
abstractly: the embedder as a function from strings to integer vectors
together with its reported output dimension, and the store interactions as
an explicit trace of operations emitted by each method.  Handler methods
that mutate `self` are modelled as functions from the handler state to the
new handler state; methods that can raise are modelled with `Except`.
-/

/-- The embedding model (`self.model`, a `SentenceTransformer`):
`encode` is `model.encode`, `dim` is `model.get_sentence_embedding_dimension()`.
Vector components are opaque to the handler, so they are modelled as `Int`. -/
structure Embedder where
  encode : String → List Int
  dim : Nat

/-- One entry of `config["milvus"]["fields"]`: each field in the configuration
has a `name`, a `dtype` and a `max_length`. -/
structure FieldConfig where
  name : String
  dtype : String
  max_length : Nat
deriving DecidableEq

/-- A `pymilvus.FieldSchema` as built by `define_schema`: name, dtype,
optional `max_length`, optional vector dimension `dim`, the `is_primary`
flag and the `auto_id` flag (both default `False` in pymilvus). -/
structure FieldSchema where
  name : String
  dtype : String
  max_length : Option Nat
  dim : Option Nat
  is_primary : Bool
  auto_id : Bool
deriving DecidableEq

/-- A `pymilvus.CollectionSchema`: the ordered field list plus the
description string. -/
structure CollectionSchema where
  fields : List FieldSchema
  description : String
deriving DecidableEq

/-- The columnar `entities` list built by `insert_data`: primary keys,
trimmed texts, and embeddings, positionally aligned. -/
structure Entities where
  pks : List String
  texts : List String
  embeddings : List (List Int)
deriving DecidableEq

/-- Search parameters passed to `Collection.search`
(`search_params = metric_type L2, nprobe 10`). -/
structure SearchParams where
  metricType : String
  nprobe : Nat
deriving DecidableEq

/-- One search hit returned by the store (`pk` entity field plus its
distance under the requested metric). -/
structure Hit where
  pk : String
  distance : Int
deriving DecidableEq

/-- Operations the handler issues against its collaborators, recorded as a
trace: embedder calls (`model.encode`), collection attach/create, index
creation, inserts, flushes and searches. -/
inductive StoreOp where
  | encode (text : String)
  | getCollection (name : String)
  | createCollection (name : String) (schema : Option CollectionSchema) (consistency : String)
  | createIndex (field : String) (indexType : String) (metricType : String) (nlist : Nat)
  | insertOp (entities : Entities)
  | flush
  | searchOp (vectors : List (List Int)) (field : String) (params : SearchParams)
      (limit : Nat) (outputFields : List String)
deriving DecidableEq

/-- Does a trace element record a call to the embedder? -/
def isEncodeOp : StoreOp → Bool
  | StoreOp.encode _ => true
  | _ => false

/-- Does a trace element record a store insert? -/
def isInsertOp : StoreOp → Bool
  | StoreOp.insertOp _ => true
  | _ => false

/-- Does a trace element record a store flush? -/
def isFlushOp : StoreOp → Bool
  | StoreOp.flush => true
  | _ => false

/-- The mutable attributes of `MilvusHandler` that the modelled methods read
or write: `collection_name` and `description` (set from config at `__init__`),
`collection_exists`, `schema` and `milvus_collection`.  A collection handle
is identified by its name. -/
structure HandlerState where
  collection_name : String
  description : String
  collection_exists : Bool
  schema : Option CollectionSchema
  milvus_collection : Option String
deriving DecidableEq

/-- The store side visible to `utility.has_collection`: the set of existing
collection names. -/
structure Store where
  collections : List String
deriving DecidableEq

/-- `utility.has_collection(name)`. -/
def has_collection (s : Store) (name : String) : Bool :=
  s.collections.contains name

/-- `MilvusHandler.check_collection_existence`: assigns
`utility.has_collection(self.collection_name)` to `self.collection_exists`. -/
def check_collection_existence (s : Store) (st : HandlerState) : HandlerState :=
  { st with collection_exists := has_collection s st.collection_name }

/-- One iteration of the `match field["name"]` dispatch in `define_schema`:
`"pk"` becomes the primary-key field with `auto_id=False`, `"embeddings"`
becomes the vector field whose `dim` is the embedder's reported dimension,
anything else becomes a plain field with config type and max length. -/
def mkField (dim : Nat) (f : FieldConfig) : FieldSchema :=
  if f.name = "pk" then
    { name := f.name, dtype := f.dtype, max_length := some f.max_length,
      dim := none, is_primary := true, auto_id := false }
  else if f.name = "embeddings" then
    { name := f.name, dtype := f.dtype, max_length := none,
      dim := some dim, is_primary := false, auto_id := false }
  else
    { name := f.name, dtype := f.dtype, max_length := some f.max_length,
      dim := none, is_primary := false, auto_id := false }

/-- `MilvusHandler.define_schema`: builds one `FieldSchema` per configured
field (in configuration order) and stores
`CollectionSchema(fields, self.description)` into `self.schema`. -/
def define_schema (m : Embedder) (fields_cfg : List FieldConfig) (st : HandlerState) :
    HandlerState :=
  { st with schema := some { fields := fields_cfg.map (mkField m.dim),
                             description := st.description } }

/-- `MilvusHandler.connect_to_collection`: if `self.collection_exists`,
attach to the existing collection by name; otherwise create
`Collection(name, schema, consistency_level="Strong")` and build an
`IVF_FLAT` index with metric `L2` and `nlist=128` on the `embeddings`
field.  Either way the handle is stored in `self.milvus_collection`. -/
def connect_to_collection (st : HandlerState) : List StoreOp × HandlerState :=
  if st.collection_exists then
    ([StoreOp.getCollection st.collection_name],
     { st with milvus_collection := some st.collection_name })
  else
    ([StoreOp.createCollection st.collection_name st.schema "Strong",
      StoreOp.createIndex "embeddings" "IVF_FLAT" "L2" 128],
     { st with milvus_collection := some st.collection_name })

/-- `MilvusHandler.insert_data`: first embeds every line (stripped), then
builds the three parallel columns (stringified primary keys
`starting_idx, starting_idx+1, …`, stripped texts, embeddings), and only
then checks `self.milvus_collection is None`, raising
`Exception("Collection is empty.")` if so; otherwise inserts the entities
and flushes.  The result is the emitted operation trace, the handler state
after the call, and either the inserted entities or the raised error. -/
def insert_data (m : Embedder) (st : HandlerState) (raw_data : List String)
    (starting_idx : Int) : List StoreOp × HandlerState × Except String Entities :=
  let s_embeddings := raw_data.map (fun sentence => m.encode sentence.trim)
  let encodeOps := raw_data.map (fun sentence => StoreOp.encode sentence.trim)
  let entities : Entities :=
    { pks := (List.range raw_data.length).map (fun i => toString (starting_idx + (i : Int))),
      texts := raw_data.map (fun line => line.trim),
      embeddings := s_embeddings }
  match st.milvus_collection with
  | none => (encodeOps, st, Except.error "Collection is empty.")
  | some _ =>
      (encodeOps ++ [StoreOp.insertOp entities, StoreOp.flush], st, Except.ok entities)

/-- The store's answer to `Collection.search`: for each query vector a group
of hits.  Modelled as an opaque function supplied by the environment. -/
def StoreSearch : Type :=
  List (List Int) → String → SearchParams → Nat → List String → List (List Hit)

/-- The `search_params` dict built inside `MilvusHandler.search`:
metric type `L2`, `nprobe` 10. -/
def search_params : SearchParams :=
  { metricType := "L2", nprobe := 10 }

/-- `MilvusHandler.search`: embeds the query text, then checks
`self.milvus_collection is None` (raising `Exception("Collection is empty.")`),
then issues the store search with metric `L2`, `nprobe=10`, the given limit
and output fields.  The method then loops `for hits in result` and afterwards
returns the loop variable `hits`: the last hit group when `result` is
non-empty, and an `UnboundLocalError` when `result` has no groups. -/
def search (m : Embedder) (store : StoreSearch) (st : HandlerState) (text : String)
    (limit : Nat) (output_fields : List String) :
    List StoreOp × Except String (List Hit) :=
  let text_embedding := m.encode text
  match st.milvus_collection with
  | none => ([StoreOp.encode text], Except.error "Collection is empty.")
  | some _ =>
      let result := store [text_embedding] "embeddings" search_params limit output_fields
      ([StoreOp.encode text,
        StoreOp.searchOp [text_embedding] "embeddings" search_params limit output_fields],
       match result.getLast? with
       | some hits => Except.ok hits
       | none => Except.error "UnboundLocalError: hits")

/-- Outcome of the store-side `utility.drop_collection` call: success, or an
exception with a message. -/
inductive DropOutcome where
  | success
  | failure (msg : String)
deriving DecidableEq

/-- `MilvusHandler.drop_db`: wraps `utility.drop_collection` in
`try/except`; on failure it logs the error, on success it logs the drop.
It never re-raises and always returns `None`.  The result is the log lines
and the (always normal) return. -/
def drop_db (outcome : DropOutcome) (st : HandlerState) :
    List String × Except String Unit :=
  match outcome with
  | DropOutcome.success =>
      (["Collection " ++ st.collection_name ++ " successfully dropped."], Except.ok ())
  | DropOutcome.failure e =>
      (["Something went wrong while trying to drop the collection: " ++ e], Except.ok ())

/-! ### Concrete fixtures used to instantiate theorems -/

/-- A concrete embedder: maps a string to the singleton vector holding its
length, reported dimension 384. -/
def embC : Embedder :=
  { encode := fun s => [Int.ofNat s.length], dim := 384 }

/-- A handler state with a collection handle attached. -/
def stAttached : HandlerState :=
  { collection_name := "demo", description := "demo collection",
    collection_exists := true, schema := none, milvus_collection := some "demo" }

/-- A handler state with no collection handle attached. -/
def stDetached : HandlerState :=
  { collection_name := "demo", description := "demo collection",
    collection_exists := false, schema := none, milvus_collection := none }

/-! ### Claims -/

/-- Claim C1: for every `raw_data` of length `k` and starting index `n`, a
successful `insert_data` produces the primary-key column as the stringified
contiguous range `n, n+1, …, n+k-1` exactly, and the column is independent
of the text content of `raw_data` (any list of the same length yields the
same primary-key column). -/
theorem insert_data_pk_range (m : Embedder) (st : HandlerState) (c : String)
    (raw_data raw2 : List String) (n : Int)
    (hc : st.milvus_collection = some c) (hlen : raw2.length = raw_data.length) :
    ((insert_data m st raw_data n).2.2.map Entities.pks)
      = Except.ok ((List.range raw_data.length).map (fun i => toString (n + (i : Int)))) ∧
    ((insert_data m st raw2 n).2.2.map Entities.pks)
      = ((insert_data m st raw_data n).2.2.map Entities.pks) := by
  simp [insert_data, hc, hlen, Except.map]

/-- Witness for C1: inserting `["a", "b"]` at starting index 0 yields primary
keys `["0", "1"]`, and `["xy", "zw"]` yields the same column. -/
theorem insert_data_pk_range_witness :
    ((insert_data embC stAttached ["a", "b"] 0).2.2.map Entities.pks)
      = Except.ok ((List.range (["a", "b"] : List String).length).map
          (fun i => toString ((0 : Int) + (i : Int)))) ∧
    ((insert_data embC stAttached ["xy", "zw"] 0).2.2.map Entities.pks)
      = ((insert_data embC stAttached ["a", "b"] 0).2.2.map Entities.pks) :=
  insert_data_pk_range embC stAttached "demo" ["a", "b"] ["xy", "zw"] 0 rfl rfl

/-- Claim C9: in every successful `insert_data`, the embeddings column is the
embedder applied to exactly the texts stored in the text column, and the text
column is the whitespace-stripped input. -/
theorem insert_data_text_embedding_consistent (m : Embedder) (st : HandlerState)
    (c : String) (raw_data : List String) (n : Int)
    (hc : st.milvus_collection = some c) :
    ((insert_data m st raw_data n).2.2.map Entities.embeddings)
      = ((insert_data m st raw_data n).2.2.map (fun e => e.texts.map m.encode)) ∧
    ((insert_data m st raw_data n).2.2.map Entities.texts)
      = Except.ok (raw_data.map String.trim) := by
  simp [insert_data, hc, Except.map, List.map_map, Function.comp]

/-- Witness for C9 at a concrete embedder, state and input. -/
theorem insert_data_text_embedding_consistent_witness :
    ((insert_data embC stAttached ["  hi ", "x"] 0).2.2.map Entities.embeddings)
      = ((insert_data embC stAttached ["  hi ", "x"] 0).2.2.map
          (fun e => e.texts.map embC.encode)) ∧
    ((insert_data embC stAttached ["  hi ", "x"] 0).2.2.map Entities.texts)
      = Except.ok ((["  hi ", "x"] : List String).map String.trim) :=
  insert_data_text_embedding_consistent embC stAttached "demo" ["  hi ", "x"] 0 rfl

/-- Claim C3 counterexample: with no collection handle attached,
`insert_data` does raise `"Collection is empty."`, but the embedder has
already been called once for the (single) input row on this failing path,
refuting "no call to the embedder occurs on the failing path". -/
theorem insert_data_embeds_before_check_cex :
    (insert_data embC stDetached ["hello"] 0).2.2 = Except.error "Collection is empty." ∧
    (insert_data embC stDetached ["hello"] 0).1.countP isEncodeOp = 1 := by
  constructor <;> rfl

/-- Claim C3 (amended): with no collection handle attached, `insert_data`
fails with the `"Collection is empty."` error, but the check happens after
the embedding work: the emitted trace on the failing path is exactly one
embedder call per input row (on the stripped text), so the embedder is
called `raw_data.length` times before the failure. -/
theorem insert_data_no_collection_embeds_anyway (m : Embedder) (st : HandlerState)
    (raw_data : List String) (n : Int) (hc : st.milvus_collection = none) :
    (insert_data m st raw_data n).2.2 = Except.error "Collection is empty." ∧
    (insert_data m st raw_data n).1
      = raw_data.map (fun sentence => StoreOp.encode sentence.trim) ∧
    (insert_data m st raw_data n).1.countP isEncodeOp = raw_data.length := by
  refine ⟨?_, ?_, ?_⟩ <;>
    simp [insert_data, hc, List.countP_map, Function.comp, isEncodeOp]

/-- Witness for C3 (amended) at a concrete failing call with two rows. -/
theorem insert_data_no_collection_embeds_anyway_witness :
    (insert_data embC stDetached ["a", "b"] 3).2.2 = Except.error "Collection is empty." ∧
    (insert_data embC stDetached ["a", "b"] 3).1
      = (["a", "b"] : List String).map (fun sentence => StoreOp.encode sentence.trim) ∧
    (insert_data embC stDetached ["a", "b"] 3).1.countP isEncodeOp
      = (["a", "b"] : List String).length :=
  insert_data_no_collection_embeds_anyway embC stDetached ["a", "b"] 3 rfl

/-- Claim C10: when `insert_data` fails with the `"Collection is empty."`
error, nothing is submitted to the store — the emitted trace contains no
insert and no flush — and the handler state after the call equals the state
before it. -/
theorem insert_data_error_no_store_writes (m : Embedder) (st : HandlerState)
    (raw_data : List String) (n : Int) (hc : st.milvus_collection = none) :
    (insert_data m st raw_data n).2.2 = Except.error "Collection is empty." ∧
    (insert_data m st raw_data n).1.countP isInsertOp = 0 ∧
    (insert_data m st raw_data n).1.countP isFlushOp = 0 ∧
    (insert_data m st raw_data n).2.1 = st := by
  refine ⟨?_, ?_, ?_, ?_⟩ <;>
    simp [insert_data, hc, List.countP_map, Function.comp, isInsertOp, isFlushOp]

/-- Witness for C10 at a concrete failing call. -/
theorem insert_data_error_no_store_writes_witness :
    (insert_data embC stDetached ["x"] 5).2.2 = Except.error "Collection is empty." ∧
    (insert_data embC stDetached ["x"] 5).1.countP isInsertOp = 0 ∧
    (insert_data embC stDetached ["x"] 5).1.countP isFlushOp = 0 ∧
    (insert_data embC stDetached ["x"] 5).2.1 = stDetached :=
  insert_data_error_no_store_writes embC stDetached ["x"] 5 rfl

/-- Claim C6: `connect_to_collection` branches on the existence flag.  If the
collection exists the trace is exactly an attach-by-name and the handle is
stored; otherwise the trace is exactly a create with the derived schema at
`"Strong"` consistency followed by an `IVF_FLAT` index with metric `L2` and
`nlist = 128` on the `embeddings` field.  Moreover, on the exists branch the
emitted trace is the same for every schema value: the derived schema is
ignored. -/
theorem connect_to_collection_branches (st : HandlerState) (sch : Option CollectionSchema) :
    connect_to_collection st =
      (if st.collection_exists then
         ([StoreOp.getCollection st.collection_name],
          { st with milvus_collection := some st.collection_name })
       else
         ([StoreOp.createCollection st.collection_name st.schema "Strong",
           StoreOp.createIndex "embeddings" "IVF_FLAT" "L2" 128],
          { st with milvus_collection := some st.collection_name })) ∧
    (connect_to_collection { st with schema := sch, collection_exists := true }).1
      = (connect_to_collection { st with collection_exists := true }).1 := by
  constructor
  · rfl
  · simp [connect_to_collection]

/-- Claim C8: `drop_db` returns normally whatever the store-side outcome of
the drop is; the failure outcome produces the same (unit) return as the
success outcome, and the failure is recorded only in the log. -/
theorem drop_db_swallows_failure (st : HandlerState) (e : String) (outcome : DropOutcome) :
    (drop_db outcome st).2 = Except.ok () ∧
    (drop_db (DropOutcome.failure e) st).2 = (drop_db DropOutcome.success st).2 ∧
    (drop_db (DropOutcome.failure e) st).1
      = ["Something went wrong while trying to drop the collection: " ++ e] := by
  refine ⟨?_, rfl, rfl⟩
  cases outcome <;> rfl

/-- A handler state that has not yet observed that its collection exists. -/
def stUnchecked : HandlerState :=
  { collection_name := "demo", description := "demo collection",
    collection_exists := false, schema := none, milvus_collection := none }

/-- Claim C5 counterexample: `check_collection_existence` is not a pure query
on the handler — on a store that does contain the collection, it changes the
handler state by writing `true` into `collection_exists`. -/
theorem check_collection_existence_mutates_cex :
    check_collection_existence (Store.mk ["demo"]) stUnchecked ≠ stUnchecked := by
  intro h
  have hb := congrArg HandlerState.collection_exists h
  simp [check_collection_existence, has_collection, stUnchecked] at hb

/-- Claim C5 (amended): with no intervening create or drop (the store
unchanged), `check_collection_existence` computes the same boolean both
times — the stored flag after each call is `has_collection` of the same
store and name — and repeating the call does not change the handler state
further (idempotence); but the call does write that boolean into the
handler's `collection_exists` attribute. -/
theorem check_collection_existence_idem (s : Store) (st : HandlerState) :
    (check_collection_existence s st).collection_exists
      = has_collection s st.collection_name ∧
    check_collection_existence s (check_collection_existence s st)
      = check_collection_existence s st := by
  exact ⟨rfl, rfl⟩

/-- A store-search stub returning no hit groups at all. -/
def storeNoGroups : StoreSearch := fun _ _ _ _ _ => []

/-- A store-search stub returning one empty hit group (the store's shape for
one query vector against an empty collection). -/
def storeEmptyGroup : StoreSearch := fun _ _ _ _ _ => [[]]

/-- Claim C4 counterexample: on a store result containing no hit groups,
`search` does not return zero hits — it fails with the unbound-local error
produced by returning the loop variable of a loop that never ran. -/
theorem search_no_groups_raises_cex :
    (search embC storeNoGroups stAttached "a query" 3 ["pk", "sentence"]).2
      = Except.error "UnboundLocalError: hits" := by
  rfl

/-- Claim C4 (amended): when the store result consists of a single empty hit
group — the store's answer for one query vector against an empty collection —
`search` returns zero hits and no error; when the result contains no groups
at all, `search` instead fails with an unbound-local error. -/
theorem search_empty_group_zero_hits (m : Embedder) (store : StoreSearch)
    (st : HandlerState) (c : String) (text : String) (limit : Nat)
    (output_fields : List String)
    (hc : st.milvus_collection = some c)
    (hr : store [m.encode text] "embeddings" search_params limit output_fields = [[]]) :
    (search m store st text limit output_fields).2 = Except.ok [] := by
  simp [search, hc, hr]

/-- Witness for C4 (amended): the empty-collection search of Scenario D
returns zero hits without error. -/
theorem search_empty_group_zero_hits_witness :
    (search embC storeEmptyGroup stAttached "a query" 3 ["pk", "sentence"]).2
      = Except.ok [] :=
  search_empty_group_zero_hits embC storeEmptyGroup stAttached "demo" "a query" 3
    ["pk", "sentence"] rfl rfl

/-- The name-based dispatch preserves the configured field name. -/
theorem mkField_name (dim : Nat) (f : FieldConfig) : (mkField dim f).name = f.name := by
  unfold mkField
  split
  · rfl
  · split <;> rfl

/-- A built field is primary exactly when the configured name is `"pk"`. -/
theorem mkField_is_primary (dim : Nat) (f : FieldConfig) :
    (mkField dim f).is_primary = (f.name == "pk") := by
  unfold mkField
  split
  · next h => simp [h]
  · next h => split <;> simp_all

/-- A built field carries a dimension exactly when the configured name is
`"embeddings"`. -/
theorem mkField_dim_isSome (dim : Nat) (f : FieldConfig) :
    (mkField dim f).dim.isSome = (f.name == "embeddings") := by
  unfold mkField
  split
  · next h => simp_all
  · split <;> simp_all

/-- A field configured with name `"embeddings"` gets the embedder's reported
dimension. -/
theorem mkField_dim_of_embeddings (dim : Nat) (f : FieldConfig)
    (h : f.name = "embeddings") : (mkField dim f).dim = some dim := by
  unfold mkField
  split
  · next hp => rw [h] at hp; exact absurd hp (by decide)
  · rfl

/-- Claim C2 counterexample: `define_schema` on the empty configured field
list yields a schema with zero primary-key fields, refuting "for every
configured field list … exactly one primary-key field". -/
theorem define_schema_no_pk_cex :
    ((define_schema embC [] stDetached).schema.map
        (fun s => (s.fields.filter (fun f => f.is_primary)).length)) ≠ some 1 := by
  intro h
  simp [define_schema, stDetached] at h

/-- Claim C2 (amended): for every configured field list containing exactly
one field named `"pk"` and exactly one named `"embeddings"`, `define_schema`
produces a schema with exactly one primary-key field, exactly one vector
field whose dimension equals the embedder's reported output dimension, and
the order (and names) of the schema's fields equals the order of the field
entries in the configuration. -/
theorem define_schema_shape (m : Embedder) (cfg : List FieldConfig) (st : HandlerState)
    (hpk : cfg.countP (fun f => f.name == "pk") = 1)
    (hemb : cfg.countP (fun f => f.name == "embeddings") = 1) :
    ∃ s, (define_schema m cfg st).schema = some s ∧
      (s.fields.filter (fun f => f.is_primary)).length = 1 ∧
      (s.fields.filter (fun f => f.dim.isSome)).map FieldSchema.dim = [some m.dim] ∧
      s.fields.map FieldSchema.name = cfg.map FieldConfig.name ∧
      s.description = st.description := by
  refine ⟨_, rfl, ?_, ?_, ?_, rfl⟩
  · rw [List.filter_map, List.length_map]
    have hco : ((fun f : FieldSchema => f.is_primary) ∘ mkField m.dim)
        = fun f : FieldConfig => f.name == "pk" := by
      funext f
      exact mkField_is_primary m.dim f
    rw [hco, ← List.countP_eq_length_filter]
    exact hpk
  · rw [List.filter_map, List.map_map]
    have hco : ((fun f : FieldSchema => f.dim.isSome) ∘ mkField m.dim)
        = fun f : FieldConfig => f.name == "embeddings" := by
      funext f
      exact mkField_dim_isSome m.dim f
    rw [hco]
    have hlen : (cfg.filter (fun f => f.name == "embeddings")).length = 1 := by
      rw [← List.countP_eq_length_filter]
      exact hemb
    obtain ⟨a, ha⟩ := List.length_eq_one.mp hlen
    have hmem : a ∈ cfg.filter (fun f => f.name == "embeddings") := by
      rw [ha]
      exact List.mem_singleton_self a
    have haemb : a.name = "embeddings" := by
      have hb := (List.mem_filter.mp hmem).2
      exact beq_iff_eq.mp hb
    rw [ha]
    simp [Function.comp, mkField_dim_of_embeddings m.dim a haemb]
  · rw [List.map_map]
    have hco : (FieldSchema.name ∘ mkField m.dim) = FieldConfig.name := by
      funext f
      exact mkField_name m.dim f
    rw [hco]

/-- The Scenario A field configuration: `pk` (string, max 36), `sentence`
(string, max 500), `embeddings` (float vector). -/
def cfgA : List FieldConfig :=
  [{ name := "pk", dtype := "VARCHAR", max_length := 36 },
   { name := "sentence", dtype := "VARCHAR", max_length := 500 },
   { name := "embeddings", dtype := "FLOAT_VECTOR", max_length := 0 }]

/-- Witness for C2 (amended) on the Scenario A configuration with an
embedder of dimension 384. -/
theorem define_schema_shape_witness :
    ∃ s, (define_schema embC cfgA stDetached).schema = some s ∧
      (s.fields.filter (fun f => f.is_primary)).length = 1 ∧
      (s.fields.filter (fun f => f.dim.isSome)).map FieldSchema.dim = [some embC.dim] ∧
      s.fields.map FieldSchema.name = cfgA.map FieldConfig.name ∧
      s.description = stDetached.description :=
  define_schema_shape embC cfgA stDetached (by rfl) (by rfl)

/-- A store-search stub returning a single group with a single hit. -/
def storeOneHit : StoreSearch := fun _ _ _ _ _ => [[{ pk := "0", distance := 0 }]]

/-- Claim C7: for every non-empty query text, on the success path `search`
calls the embedder exactly once — the only embedder operation in the trace
is the encoding of the query text itself — issues one store search carrying
the `L2` metric (`nprobe` 10) and the requested limit, and, provided the
store honours the limit on each hit group and returns at least one group,
returns at most `limit` hits. -/
theorem search_embeds_once_and_limits (m : Embedder) (store : StoreSearch)
    (st : HandlerState) (c : String) (text : String) (limit : Nat)
    (output_fields : List String)
    (hc : st.milvus_collection = some c)
    (_htext : text ≠ "")
    (hstore : ∀ g ∈ store [m.encode text] "embeddings" search_params limit output_fields,
      g.length ≤ limit)
    (hne : store [m.encode text] "embeddings" search_params limit output_fields ≠ []) :
    (search m store st text limit output_fields).1.filter isEncodeOp
        = [StoreOp.encode text] ∧
    StoreOp.searchOp [m.encode text] "embeddings" search_params limit output_fields
        ∈ (search m store st text limit output_fields).1 ∧
    ∃ hits, (search m store st text limit output_fields).2 = Except.ok hits ∧
      hits.length ≤ limit := by
  refine ⟨?_, ?_, ?_⟩
  · simp [search, hc, isEncodeOp]
  · simp [search, hc]
  · rcases hlast : (store [m.encode text] "embeddings" search_params limit
        output_fields).getLast? with _ | hits
    · exact absurd (List.getLast?_eq_none_iff.mp hlast) hne
    · refine ⟨hits, ?_, ?_⟩
      · simp [search, hc, hlast]
      · exact hstore hits (List.mem_of_getLast?_eq_some hlast)

/-- Witness for C7: a concrete search with limit 3 against a store holding
one hit. -/
theorem search_embeds_once_and_limits_witness :
    (search embC storeOneHit stAttached "a query" 3 ["pk", "sentence"]).1.filter isEncodeOp
        = [StoreOp.encode "a query"] ∧
    StoreOp.searchOp [embC.encode "a query"] "embeddings" search_params 3 ["pk", "sentence"]
        ∈ (search embC storeOneHit stAttached "a query" 3 ["pk", "sentence"]).1 ∧
    ∃ hits, (search embC storeOneHit stAttached "a query" 3 ["pk", "sentence"]).2
        = Except.ok hits ∧ hits.length ≤ 3 :=
  search_embeds_once_and_limits embC storeOneHit stAttached "demo" "a query" 3
    ["pk", "sentence"] rfl (by decide) (by decide) (by decide)
